import Mathlib

/-!
Shallow embedding of the typed-screeps declaration files
(src/dist/index.d.ts and src/src/structure.ts) and proofs about them.

The repository consists of TypeScript ambient type declarations for an
externally hosted game runtime.  The embedding below reproduces the
declared literal constants, union types, mapped types and method
signatures as executable Lean data, and proves the claimed structural
facts about them.
-/

namespace Screeps

/-! Return-code constants, from src/dist/index.d.ts lines 2397 to 2413.
Each TypeScript declaration `type NAME = v` of a singleton numeric type
is embedded as an integer constant. -/

def OK : Int := 0

def ERR_NOT_OWNER : Int := -1

def ERR_NO_PATH : Int := -2

def ERR_NAME_EXISTS : Int := -3

def ERR_BUSY : Int := -4

def ERR_NOT_FOUND : Int := -5

def ERR_NOT_ENOUGH_RESOURCES : Int := -6

def ERR_NOT_ENOUGH_ENERGY : Int := -6

def ERR_INVALID_TARGET : Int := -7

def ERR_FULL : Int := -8

def ERR_NOT_IN_RANGE : Int := -9

def ERR_INVALID_ARGS : Int := -10

def ERR_TIRED : Int := -11

def ERR_NO_BODYPART : Int := -12

def ERR_NOT_ENOUGH_EXTENSIONS : Int := -6

def ERR_RCL_NOT_ENOUGH : Int := -14

def ERR_GCL_NOT_ENOUGH : Int := -15

/-- Union type `ScreepsReturnCode` from src/dist/index.d.ts lines 2378
to 2395, embedded as the list of member values in source order. -/
def ScreepsReturnCode : List Int :=
  [OK, ERR_NOT_OWNER, ERR_NO_PATH, ERR_BUSY, ERR_NAME_EXISTS, ERR_NOT_FOUND,
   ERR_NOT_ENOUGH_RESOURCES, ERR_NOT_ENOUGH_ENERGY, ERR_INVALID_TARGET,
   ERR_FULL, ERR_NOT_IN_RANGE, ERR_INVALID_ARGS, ERR_TIRED, ERR_NO_BODYPART,
   ERR_NOT_ENOUGH_EXTENSIONS, ERR_RCL_NOT_ENOUGH, ERR_GCL_NOT_ENOUGH]

/-- Names of the seventeen declared return-code types, one constructor
per `type ERR_* = ...` declaration in src/dist/index.d.ts. -/
inductive ReturnCodeName
  | OK
  | ERR_NOT_OWNER
  | ERR_NO_PATH
  | ERR_NAME_EXISTS
  | ERR_BUSY
  | ERR_NOT_FOUND
  | ERR_NOT_ENOUGH_RESOURCES
  | ERR_NOT_ENOUGH_ENERGY
  | ERR_INVALID_TARGET
  | ERR_FULL
  | ERR_NOT_IN_RANGE
  | ERR_INVALID_ARGS
  | ERR_TIRED
  | ERR_NO_BODYPART
  | ERR_NOT_ENOUGH_EXTENSIONS
  | ERR_RCL_NOT_ENOUGH
  | ERR_GCL_NOT_ENOUGH
deriving DecidableEq, Fintype

/-- Numeric value of each declared return-code name, from the literal
singleton types in src/dist/index.d.ts lines 2397 to 2413. -/
def codeValue : ReturnCodeName → Int
  | .OK => 0
  | .ERR_NOT_OWNER => -1
  | .ERR_NO_PATH => -2
  | .ERR_NAME_EXISTS => -3
  | .ERR_BUSY => -4
  | .ERR_NOT_FOUND => -5
  | .ERR_NOT_ENOUGH_RESOURCES => -6
  | .ERR_NOT_ENOUGH_ENERGY => -6
  | .ERR_INVALID_TARGET => -7
  | .ERR_FULL => -8
  | .ERR_NOT_IN_RANGE => -9
  | .ERR_INVALID_ARGS => -10
  | .ERR_TIRED => -11
  | .ERR_NO_BODYPART => -12
  | .ERR_NOT_ENOUGH_EXTENSIONS => -6
  | .ERR_RCL_NOT_ENOUGH => -14
  | .ERR_GCL_NOT_ENOUGH => -15

/-- Values of all seventeen declared return-code constants, in
declaration order. -/
def declaredCodeValues : List Int :=
  [OK, ERR_NOT_OWNER, ERR_NO_PATH, ERR_NAME_EXISTS, ERR_BUSY, ERR_NOT_FOUND,
   ERR_NOT_ENOUGH_RESOURCES, ERR_NOT_ENOUGH_ENERGY, ERR_INVALID_TARGET,
   ERR_FULL, ERR_NOT_IN_RANGE, ERR_INVALID_ARGS, ERR_TIRED, ERR_NO_BODYPART,
   ERR_NOT_ENOUGH_EXTENSIONS, ERR_RCL_NOT_ENOUGH, ERR_GCL_NOT_ENOUGH]

/-- Return-code value set as the specification lists it: OK = 0 down to
ERR_GCL_NOT_ENOUGH = -15 with a gap at -13 (comparison target for the
exactness claim about `ScreepsReturnCode`). -/
def specReturnCodeValues : List Int :=
  [0, -1, -2, -3, -4, -5, -6, -7, -8, -9, -10, -11, -12, -14, -15]

/-! Declared method signatures.  A TypeScript method declaration is
embedded as a record holding the result codes enumerated in its
documentation comment and its declared return type. -/

/-- Declared return type of a method: either a union of result-code
types, or the TypeScript type `undefined`. -/
inductive TsReturnType
  | codeUnion (codes : List Int)
  | undefined
deriving DecidableEq

/-- Whether a declared return type is a result code (a union of members
of the integer result-code set) as opposed to an out-of-band value. -/
def TsReturnType.isResultCode : TsReturnType → Bool
  | .codeUnion _ => true
  | .undefined => false

/-- Result codes carried by a declared return type. -/
def TsReturnType.declaredCodes : TsReturnType → List Int
  | .codeUnion codes => codes
  | .undefined => []

/-- A declared fallible operation: its name, the result codes its
documentation comment enumerates, and its declared return type. -/
structure DeclaredMethod where
  name : String
  docCodes : List Int
  returnType : TsReturnType
deriving DecidableEq

/-- Declaration of `StructureRampart.setPublic` from
src/src/structure.ts lines 391 to 398 (identical in
src/dist/index.d.ts line 6151): the documentation comment enumerates
the codes OK and ERR_NOT_OWNER, while the declared return type is the
TypeScript type `undefined`. -/
def StructureRampart.setPublic : DeclaredMethod :=
  { name := "setPublic"
  , docCodes := [OK, ERR_NOT_OWNER]
  , returnType := TsReturnType.undefined }

/-- Declaration of `Creep.drop` from src/dist/index.d.ts lines 1283 to
1295: the documentation comment enumerates OK, ERR_NOT_OWNER, ERR_BUSY,
ERR_NOT_ENOUGH_RESOURCES and ERR_INVALID_ARGS, while the declared
return type is the union
`OK | ERR_NOT_OWNER | ERR_BUSY | ERR_NOT_ENOUGH_RESOURCES`. -/
def Creep.drop : DeclaredMethod :=
  { name := "drop"
  , docCodes := [OK, ERR_NOT_OWNER, ERR_BUSY, ERR_NOT_ENOUGH_RESOURCES,
                 ERR_INVALID_ARGS]
  , returnType := TsReturnType.codeUnion
      [OK, ERR_NOT_OWNER, ERR_BUSY, ERR_NOT_ENOUGH_RESOURCES] }

/-! Market constants, from src/dist/index.d.ts lines 756 to 758. -/

def MARKET_FEE : ℚ := 0.05

def MARKET_MAX_ORDERS : Nat := 300

def MARKET_ORDER_LIFE_TIME : Nat := 2592000000

/-! Structure-type tags, from src/dist/index.d.ts lines 2601 to 2629:
the union `StructureConstant` has exactly twenty-one literal members. -/

/-- Structure-type tag constants, one constructor per STRUCTURE_*
literal type, in the declaration order of the literal types. -/
inductive StructureConstant
  | extension
  | rampart
  | road
  | spawn
  | link
  | wall
  | keeperLair
  | controller
  | storage
  | tower
  | observer
  | powerBank
  | powerSpawn
  | extractor
  | lab
  | terminal
  | container
  | nuker
  | factory
  | invaderCore
  | portal
deriving DecidableEq, Fintype

/-- Literal string value of each STRUCTURE_* singleton type, from
src/dist/index.d.ts lines 2609 to 2629. -/
def structureTag : StructureConstant → String
  | .extension => "extension"
  | .rampart => "rampart"
  | .road => "road"
  | .spawn => "spawn"
  | .link => "link"
  | .wall => "constructedWall"
  | .keeperLair => "keeperLair"
  | .controller => "controller"
  | .storage => "storage"
  | .tower => "tower"
  | .observer => "observer"
  | .powerBank => "powerBank"
  | .powerSpawn => "powerSpawn"
  | .extractor => "extractor"
  | .lab => "lab"
  | .terminal => "terminal"
  | .container => "container"
  | .nuker => "nuker"
  | .factory => "factory"
  | .invaderCore => "invaderCore"
  | .portal => "portal"

/-- The twenty-one concrete structure interfaces declared in the
repository (twenty in src/src/structure.ts plus StructureSpawn in
src/dist/index.d.ts line 5417). -/
inductive ConcreteInterface
  | StructureController
  | StructureExtension
  | StructureLink
  | StructureKeeperLair
  | StructureObserver
  | StructurePowerBank
  | StructurePowerSpawn
  | StructureRampart
  | StructureRoad
  | StructureStorage
  | StructureTower
  | StructureWall
  | StructureExtractor
  | StructureLab
  | StructureTerminal
  | StructureContainer
  | StructureNuker
  | StructurePortal
  | StructureFactory
  | StructureInvaderCore
  | StructureSpawn
deriving DecidableEq, Fintype

/-- Structure-type tag carried by each concrete interface, read off the
extends clause of its declaration: an interface extending
`Structure<T>` or `OwnedStructure<T>` has `structureType` exactly T. -/
def structureTypeOf : ConcreteInterface → StructureConstant
  | .StructureController => .controller
  | .StructureExtension => .extension
  | .StructureLink => .link
  | .StructureKeeperLair => .keeperLair
  | .StructureObserver => .observer
  | .StructurePowerBank => .powerBank
  | .StructurePowerSpawn => .powerSpawn
  | .StructureRampart => .rampart
  | .StructureRoad => .road
  | .StructureStorage => .storage
  | .StructureTower => .tower
  | .StructureWall => .wall
  | .StructureExtractor => .extractor
  | .StructureLab => .lab
  | .StructureTerminal => .terminal
  | .StructureContainer => .container
  | .StructureNuker => .nuker
  | .StructurePortal => .portal
  | .StructureFactory => .factory
  | .StructureInvaderCore => .invaderCore
  | .StructureSpawn => .spawn

/-- The interface `ConcreteStructureMap` from src/src/structure.ts
lines 924 to 946, embedded as the association list of its twenty-one
entries in source order. -/
def ConcreteStructureMap : List (StructureConstant × ConcreteInterface) :=
  [ (.extension, .StructureExtension)
  , (.rampart, .StructureRampart)
  , (.road, .StructureRoad)
  , (.spawn, .StructureSpawn)
  , (.link, .StructureLink)
  , (.wall, .StructureWall)
  , (.storage, .StructureStorage)
  , (.tower, .StructureTower)
  , (.observer, .StructureObserver)
  , (.powerSpawn, .StructurePowerSpawn)
  , (.extractor, .StructureExtractor)
  , (.lab, .StructureLab)
  , (.terminal, .StructureTerminal)
  , (.container, .StructureContainer)
  , (.nuker, .StructureNuker)
  , (.factory, .StructureFactory)
  , (.keeperLair, .StructureKeeperLair)
  , (.controller, .StructureController)
  , (.powerBank, .StructurePowerBank)
  , (.portal, .StructurePortal)
  , (.invaderCore, .StructureInvaderCore) ]

/-- The union `AnyOwnedStructure` from src/src/structure.ts lines 884
to 901, in source order. -/
def AnyOwnedStructure : List ConcreteInterface :=
  [ .StructureController, .StructureExtension, .StructureExtractor
  , .StructureFactory, .StructureInvaderCore, .StructureKeeperLair
  , .StructureLab, .StructureLink, .StructureNuker, .StructureObserver
  , .StructurePowerBank, .StructurePowerSpawn, .StructureRampart
  , .StructureSpawn, .StructureStorage, .StructureTerminal
  , .StructureTower ]

/-- The union `AnyStructure` from src/src/structure.ts line 919. -/
def AnyStructure : List ConcreteInterface :=
  AnyOwnedStructure ++
    [.StructureContainer, .StructurePortal, .StructureRoad, .StructureWall]

/-! Field lists of the base structure interfaces.  `RoomObject` is from
src/dist/index.d.ts lines 4442 to 4459, `Structure` from
src/src/structure.ts lines 4 to 53, `OwnedStructure` from
src/src/structure.ts lines 64 to 83.  An extending interface exposes
its own properties together with those of the interface it extends. -/

/-- Properties of the RoomObject interface. -/
def RoomObject.props : List String :=
  ["prototype", "effects", "pos", "room"]

/-- Properties declared directly on the Structure interface. -/
def Structure.ownProps : List String :=
  ["prototype", "hits", "hitsMax", "id", "room", "structureType"]

/-- Properties exposed by the Structure interface, inherited ones
included. -/
def Structure.props : List String :=
  RoomObject.props ++ Structure.ownProps

/-- Properties declared directly on the OwnedStructure interface. -/
def OwnedStructure.ownProps : List String :=
  ["prototype", "my", "owner", "room"]

/-- Properties exposed by the OwnedStructure interface, inherited ones
included. -/
def OwnedStructure.props : List String :=
  Structure.props ++ OwnedStructure.ownProps

/-- Declared type of the owner field of an owned structure. -/
inductive TsOwnerFieldType
  | owner
  | ownerOrUndefined
deriving DecidableEq

/-- Conditional type of `OwnedStructure<T>.owner` from
src/src/structure.ts line 76:
`T extends STRUCTURE_CONTROLLER ? Owner | undefined : Owner`. -/
def ownerFieldType (t : StructureConstant) : TsOwnerFieldType :=
  if t = StructureConstant.controller then
    TsOwnerFieldType.ownerOrUndefined
  else
    TsOwnerFieldType.owner

/-! Resource constants, from src/dist/index.d.ts lines 2638 to 2837.
Each RESOURCE_* singleton type is embedded by its literal string, and
each union of resource types by the list of its members in source
order. -/

def RESOURCE_ENERGY : String := "energy"

def RESOURCE_POWER : String := "power"

def RESOURCE_OPS : String := "ops"

/-- The raw harvestable minerals. -/
def MineralConstant : List String :=
  ["U", "L", "K", "Z", "O", "H", "X"]

/-- The compounds which cannot boost. -/
def MineralBaseCompoundsConstant : List String :=
  ["OH", "ZK", "UL", "G"]

/-- The boosts from tier 1 to tier 3. -/
def MineralBoostConstant : List String :=
  ["UH", "UO", "KH", "KO", "LH", "LO", "ZH", "ZO", "GH", "GO",
   "UH2O", "UHO2", "KH2O", "KHO2", "LH2O", "LHO2", "ZH2O", "ZHO2",
   "GH2O", "GHO2",
   "XUH2O", "XUHO2", "XKH2O", "XKHO2", "XLH2O", "XLHO2", "XZH2O",
   "XZHO2", "XGH2O", "XGHO2"]

/-- All the mineral compounds. -/
def MineralCompoundConstant : List String :=
  MineralBaseCompoundsConstant ++ MineralBoostConstant

/-- The raw deposits. -/
def DepositConstant : List String :=
  ["mist", "biomass", "metal", "silicon"]

/-- The commodities, produced by the Factory. -/
def CommodityConstant : List String :=
  ["utrium_bar", "lemergium_bar", "zynthium_bar", "keanium_bar",
   "ghodium_melt", "oxidant", "reductant", "purifier", "battery",
   "composite", "crystal", "liquid",
   "wire", "switch", "transistor", "microchip", "circuit", "device",
   "cell", "phlegm", "tissue", "muscle", "organoid", "organism",
   "alloy", "tube", "fixtures", "frame", "hydraulics", "machine",
   "condensate", "concentrate", "extract", "spirit", "emanation",
   "essence"]

/-- The union `ResourceConstant` from src/dist/index.d.ts lines 2638
to 2645: energy, power and ops followed by the minerals, mineral
compounds, deposits and commodities. -/
def ResourceConstant : List String :=
  [RESOURCE_ENERGY, RESOURCE_POWER, RESOURCE_OPS] ++
    MineralConstant ++ MineralCompoundConstant ++ DepositConstant ++
      CommodityConstant

/-! The `Store` mapped type, from src/dist/index.d.ts lines 5707 to
5710: `StoreBase<P, U> & [a field of type number for every resource in
P] & [a field of the literal type 0 for every resource constant outside
P]`. -/

/-- Declared type of one indexed field of a store. -/
inductive TsFieldType
  | number
  | literalZero
deriving DecidableEq

/-- Type of the field `store[r]` under the Store mapped type, for a
store whose possible-resource set is `possible`: resources in
`possible` get type number, resource constants outside it get the
literal type 0, and anything that is not a resource constant is not a
field at all. -/
def storeFieldType (possible : List String) (r : String) :
    Option TsFieldType :=
  if r ∈ possible then some TsFieldType.number
  else if r ∈ ResourceConstant then some TsFieldType.literalZero
  else none

/-! Store state and accessors.  The repository declares only the typed
surface `StoreBase` (src/dist/index.d.ts lines 5660 to 5705); the
numeric content of a store is maintained by the external game host. -/

/-- Modelled from the spec: the per-tick numeric state of one store is
missing from the repository, which declares only the StoreBase typed
surface; the host keeps, for each store, its possible-resource set, a
per-resource amount, per-resource and aggregate capacities, and the
unlimited flag, and enforces the invariant that used capacity never
exceeds capacity (per resource and in aggregate). -/
structure HostStore where
  possible : List String
  unlimited : Bool
  amounts : String → Nat
  capOf : String → Nat
  capTotal : Nat
  used_le_cap : ∀ r ∈ possible, amounts r ≤ capOf r
  total_used_le_cap : (possible.map amounts).sum ≤ capTotal

/-- Whether a store is general purpose, translated from the conditional
`ResourceConstant extends POSSIBLE_RESOURCES` in the declared
StoreBase accessor types: every resource constant is possible. -/
def HostStore.generalPurpose (s : HostStore) : Bool :=
  ResourceConstant.all (fun r => s.possible.contains r)

/-- Accessor getCapacity, following its declared conditional return
type (null when the store is unlimited, total capacity without a
resource argument on a general purpose store, per-resource capacity for
a valid resource, null otherwise), with the numeric values taken from
the host-kept state. -/
def HostStore.getCapacity (s : HostStore) : Option String → Option Nat
  | none =>
    if s.unlimited then none
    else if s.generalPurpose then some s.capTotal
    else none
  | some r =>
    if s.unlimited then none
    else if r ∈ s.possible then some (s.capOf r)
    else none

/-- Accessor getUsedCapacity, following its declared conditional return
type (total used capacity without a resource argument on a general
purpose store, per-resource amount for a valid resource, null
otherwise). -/
def HostStore.getUsedCapacity (s : HostStore) :
    Option String → Option Nat
  | none =>
    if s.generalPurpose then some (s.possible.map s.amounts).sum
    else none
  | some r =>
    if r ∈ s.possible then some (s.amounts r)
    else none

/-- Accessor getFreeCapacity, following its declared conditional return
type, with the numeric value the capacity remaining after the used
amount. -/
def HostStore.getFreeCapacity (s : HostStore) :
    Option String → Option Nat
  | none =>
    if s.unlimited then none
    else if s.generalPurpose then
      some (s.capTotal - (s.possible.map s.amounts).sum)
    else none
  | some r =>
    if s.unlimited then none
    else if r ∈ s.possible then some (s.capOf r - s.amounts r)
    else none

/-- A concrete general purpose store holding ten units of every
resource, with per-resource capacity one hundred and aggregate capacity
one thousand. -/
def generalStore : HostStore where
  possible := ResourceConstant
  unlimited := false
  amounts := fun _ => 10
  capOf := fun _ => 100
  capTotal := 1000
  used_le_cap := by
    intro r _
    show (10 : Nat) ≤ 100
    decide
  total_used_le_cap := by
    decide

end Screeps

namespace Screeps

/-- C1: the return-code constants have exactly the literal values
OK = 0 down to ERR_GCL_NOT_ENOUGH = -15 as listed in the claim, and the
value set of the union type ScreepsReturnCode is exactly the fifteen
listed values, with no value outside that set a member. -/
theorem return_codes_exact :
    (OK = 0 ∧ ERR_NOT_OWNER = -1 ∧ ERR_NO_PATH = -2 ∧ ERR_NAME_EXISTS = -3 ∧
     ERR_BUSY = -4 ∧ ERR_NOT_FOUND = -5 ∧ ERR_NOT_ENOUGH_RESOURCES = -6 ∧
     ERR_INVALID_TARGET = -7 ∧ ERR_FULL = -8 ∧ ERR_NOT_IN_RANGE = -9 ∧
     ERR_INVALID_ARGS = -10 ∧ ERR_TIRED = -11 ∧ ERR_NO_BODYPART = -12 ∧
     ERR_RCL_NOT_ENOUGH = -14 ∧ ERR_GCL_NOT_ENOUGH = -15) ∧
    ScreepsReturnCode.toFinset = specReturnCodeValues.toFinset := by
  decide

/-- C8: the name-to-value mapping of the declared return codes is not
injective: ERR_NOT_ENOUGH_RESOURCES, ERR_NOT_ENOUGH_ENERGY and
ERR_NOT_ENOUGH_EXTENSIONS all have the value -6, so the image of the
seventeen names has fewer than seventeen values; and no declared code
has the value -13, every name mapping into the gapped value list. -/
theorem return_code_collisions :
    ERR_NOT_ENOUGH_RESOURCES = -6 ∧ ERR_NOT_ENOUGH_ENERGY = -6 ∧
    ERR_NOT_ENOUGH_EXTENSIONS = -6 ∧
    codeValue ReturnCodeName.ERR_NOT_ENOUGH_RESOURCES =
      codeValue ReturnCodeName.ERR_NOT_ENOUGH_ENERGY ∧
    codeValue ReturnCodeName.ERR_NOT_ENOUGH_ENERGY =
      codeValue ReturnCodeName.ERR_NOT_ENOUGH_EXTENSIONS ∧
    (Finset.image codeValue Finset.univ).card <
      (Finset.univ : Finset ReturnCodeName).card ∧
    declaredCodeValues.contains (-13) = false ∧
    (∀ n : ReturnCodeName, codeValue n ∈ specReturnCodeValues) := by
  decide

/-- C2 (code bug evidence): the declared return type of
StructureRampart.setPublic is the TypeScript type undefined, not a
result code, although its own documentation comment enumerates the
result codes OK and ERR_NOT_OWNER. -/
theorem setPublic_returns_undefined :
    StructureRampart.setPublic.returnType = TsReturnType.undefined ∧
    StructureRampart.setPublic.returnType.isResultCode = false ∧
    StructureRampart.setPublic.docCodes = [OK, ERR_NOT_OWNER] := by
  decide

/-- C5 (code bug evidence): the documentation comment of Creep.drop
enumerates five codes including ERR_INVALID_ARGS, but the declared
return type carries only four codes and omits ERR_INVALID_ARGS, so the
declared code set differs from the documented code set. -/
theorem drop_declared_codes_differ_from_doc :
    Creep.drop.docCodes =
      [OK, ERR_NOT_OWNER, ERR_BUSY, ERR_NOT_ENOUGH_RESOURCES,
       ERR_INVALID_ARGS] ∧
    Creep.drop.returnType.declaredCodes =
      [OK, ERR_NOT_OWNER, ERR_BUSY, ERR_NOT_ENOUGH_RESOURCES] ∧
    Creep.drop.docCodes.contains ERR_INVALID_ARGS = true ∧
    Creep.drop.returnType.declaredCodes.contains ERR_INVALID_ARGS = false := by
  decide

/-- C4: MARKET_FEE is exactly the rational 5/100 and
MARKET_ORDER_LIFE_TIME is exactly 1000*60*60*24*30 milliseconds,
thirty days. -/
theorem market_constants_exact :
    MARKET_FEE = 5 / 100 ∧
    MARKET_ORDER_LIFE_TIME = 1000 * 60 * 60 * 24 * 30 := by
  constructor
  · norm_num [MARKET_FEE]
  · norm_num [MARKET_ORDER_LIFE_TIME]

/-- C3: ConcreteStructureMap has exactly twenty-one entries; every
entry maps a tag T to an interface whose structureType is exactly T;
the map keys cover every structure-type tag; and the union AnyStructure
consists of exactly the twenty-one interfaces appearing as map values,
none missing and none extra. -/
theorem concrete_structure_map_exact :
    ConcreteStructureMap.length = 21 ∧
    ConcreteStructureMap.map (fun p => (p.1, structureTypeOf p.2)) =
      ConcreteStructureMap.map (fun p => (p.1, p.1)) ∧
    (ConcreteStructureMap.map Prod.fst).toFinset =
      (Finset.univ : Finset StructureConstant) ∧
    AnyStructure.length = 21 ∧
    (ConcreteStructureMap.map Prod.snd).toFinset = AnyStructure.toFinset := by
  decide

/-- C7 (counterexample): the base Structure interface does not expose
an owner field; of the five fields the claim requires on both
interfaces, owner is missing from Structure. -/
theorem structure_base_lacks_owner :
    Structure.props.contains "owner" = false := by
  decide

/-- C7 (amended): both the Structure and OwnedStructure interfaces
expose id, hits, hitsMax, pos and room; the owner field is exposed by
OwnedStructure but not by the base Structure interface. -/
theorem structure_common_fields :
    (["id", "hits", "hitsMax", "pos", "room"].all
       (fun f => Structure.props.contains f)) = true ∧
    (["id", "hits", "hitsMax", "pos", "room", "owner"].all
       (fun f => OwnedStructure.props.contains f)) = true ∧
    OwnedStructure.props.contains "owner" = true ∧
    Structure.props.contains "owner" = false := by
  decide

/-- C10: the owner field of OwnedStructure may be absent (type
Owner | undefined) exactly when the structure-type tag is
STRUCTURE_CONTROLLER; for every other tag the owner field has type
Owner. -/
theorem owner_optional_only_for_controller :
    ∀ t : StructureConstant,
      (ownerFieldType t = TsOwnerFieldType.ownerOrUndefined ↔
        t = StructureConstant.controller) := by
  decide

/-- C6: for every store and every resource valid for it, the used
capacity is at most the capacity, the free capacity is their
difference, and on a general purpose store the same holds for the
aggregate used capacity, total capacity and total free capacity. -/
theorem store_capacity_invariant (s : HostStore) (r : String)
    (hu : s.unlimited = false) (hr : r ∈ s.possible) :
    s.getCapacity (some r) = some (s.capOf r) ∧
    s.getUsedCapacity (some r) = some (s.amounts r) ∧
    s.amounts r ≤ s.capOf r ∧
    s.getFreeCapacity (some r) = some (s.capOf r - s.amounts r) ∧
    (s.generalPurpose = true →
      s.getCapacity none = some s.capTotal ∧
      s.getUsedCapacity none = some (s.possible.map s.amounts).sum ∧
      (s.possible.map s.amounts).sum ≤ s.capTotal ∧
      s.getFreeCapacity none =
        some (s.capTotal - (s.possible.map s.amounts).sum)) := by
  refine ⟨?_, ?_, s.used_le_cap r hr, ?_, fun hg => ⟨?_, ?_, s.total_used_le_cap, ?_⟩⟩ <;>
    simp_all [HostStore.getCapacity, HostStore.getUsedCapacity,
      HostStore.getFreeCapacity]

/-- Witness for the store capacity invariant: the general purpose store
holding ten units of each of the eighty-four resources has free
capacity ninety for energy and aggregate free capacity one hundred
sixty. -/
theorem store_capacity_invariant_witness :
    generalStore.getCapacity (some RESOURCE_ENERGY) = some 100 ∧
    generalStore.getUsedCapacity (some RESOURCE_ENERGY) = some 10 ∧
    generalStore.getFreeCapacity (some RESOURCE_ENERGY) = some 90 ∧
    generalStore.getFreeCapacity none = some 160 := by
  have h := store_capacity_invariant generalStore RESOURCE_ENERGY
    (by decide) (by decide)
  have hg := h.2.2.2.2 (by decide)
  exact ⟨h.1, h.2.1, h.2.2.2.1, hg.2.2.2⟩

/-- C9: indexing a store by a resource constant is total and never
yields the undefined type: for a store with possible-resource set
`possible`, the field `store[r]` for any resource constant r has type
number when r is possible and the literal type 0 otherwise. -/
theorem store_indexing_total (possible : List String) (r : String)
    (hr : r ∈ ResourceConstant) :
    storeFieldType possible r =
      some (if r ∈ possible then TsFieldType.number
            else TsFieldType.literalZero) := by
  unfold storeFieldType
  by_cases h : r ∈ possible <;> simp [h, hr]

/-- Witness for store indexing totality: on an extension store, whose
only possible resource is energy, the field for power is the literal
type 0 and the field for energy has type number. -/
theorem store_indexing_total_witness :
    storeFieldType [RESOURCE_ENERGY] RESOURCE_POWER =
      some TsFieldType.literalZero ∧
    storeFieldType [RESOURCE_ENERGY] RESOURCE_ENERGY =
      some TsFieldType.number := by
  have h1 := store_indexing_total [RESOURCE_ENERGY] RESOURCE_POWER
    (by decide)
  have h2 := store_indexing_total [RESOURCE_ENERGY] RESOURCE_ENERGY
    (by decide)
  rw [h1, h2]
  constructor <;> decide

end Screeps
